import Mathlib

/-!
# Verification of the `brightness` crate's backend logic

Shallow embedding of the two platform backends (Linux sysfs/D-Bus and Windows
handle-based) of the `brightness` crate, together with theorems settling the
specification claims.

Conventions of the embedding:
* `u32`/`u64`/`u8` arithmetic is modelled on `ℕ` with explicit `% 2^w`
  reductions exactly where the Rust (release-mode, wrapping) arithmetic can
  overflow; where a comment notes an operation cannot overflow, no reduction
  is inserted.
* OS and service calls (filesystem reads, D-Bus calls, Win32 calls) are
  modelled by environment parameters giving the outcome of each call; the
  functions under verification are the pure decision logic of the source,
  parameterised by those outcomes. Where the order of the side effects
  matters, a function additionally returns the list of control events it
  emits, in order.
* `f64` computations of the DDC/CI path are modelled exactly over `ℚ`, with
  `f64::round` (round half away from zero) modelled by `roundHalfAway`.
-/

namespace Brightness

/-- The modulus of `u32` arithmetic. -/
def U32 : ℕ := 4294967296

/-- The caller-facing error type (`Error` in `src/lib.rs`), without the boxed
platform-specific causes. -/
inductive Error
  | listingDevicesFailed
  | gettingDeviceInfoFailed (device : String)
  | settingBrightnessFailed (device : String)
  deriving DecidableEq, Repr

/-- Rust `f64::round`: rounds half away from zero (Mathlib's `round` rounds
half up, which agrees on nonnegative arguments). -/
def roundHalfAway (q : ℚ) : ℤ := if q < 0 then -round (-q) else round q

namespace Linux

/-- Platform-specific error type (`SysError` in `src/blocking/linux.rs`),
keeping the device name where the source keeps one. -/
inductive SysError
  | readingBacklightDirFailed
  | readingBacklightDeviceFailed (device : String)
  | parsingBacklightInfoFailed (device : String)
  | writingBrightnessFailed (device : String)
  deriving DecidableEq, Repr

/-- `impl From<SysError> for Error` in `src/blocking/linux.rs`. -/
def SysError.toError : SysError → Error
  | .readingBacklightDirFailed => .listingDevicesFailed
  | .readingBacklightDeviceFailed device => .gettingDeviceInfoFailed device
  | .parsingBacklightInfoFailed device => .gettingDeviceInfoFailed device
  | .writingBrightnessFailed device => .settingBrightnessFailed device

/-- The percentage computation of `BlockingDeviceImpl::get`
(`src/blocking/linux.rs` lines 28–32):
`if max == 0 { 0 } else { (actual * 100 / max) as u32 }`.
`actual` and `max` are `u32`, so the multiplication `actual * 100` wraps
modulo `2^32`; the division result is at most `actual * 100` so the final
`as u32` cast is lossless. -/
def getPercentage (actual max : ℕ) : ℕ :=
  if max = 0 then 0 else actual * 100 % U32 / max

/-- `BlockingDeviceImpl::get`: reads `max_brightness` then
`actual_brightness` (each a fallible `read_value` call, modelled by its
outcome) and computes the percentage. A `read_value` failure is converted by
`?` through `From<SysError> for Error`. -/
def get (readMax readActual : Except SysError ℕ) : Except Error ℕ :=
  match readMax with
  | .error e => .error e.toError
  | .ok max =>
    match readActual with
    | .error e => .error e.toError
    | .ok actual => .ok (getPercentage actual max)

/-- Outcome of the `bus.call_method(..)` D-Bus `SetBrightness` call in
`BlockingDeviceImpl::set`: success, `zbus::Error::MethodError(..)`, or any
other `zbus::Error`. -/
inductive DbusResponse
  | ok
  | methodError
  | otherError
  deriving DecidableEq, Repr

/-- Outcomes of the side-effecting calls made by one `BlockingDeviceImpl::set`
invocation. -/
structure SetEnv where
  /-- Result of `read_value(&self.device, Value::Max)`. -/
  readMax : Except SysError ℕ
  /-- Whether `zbus::blocking::Connection::system()` succeeds. -/
  connectOk : Bool
  /-- Result of the D-Bus `SetBrightness` method call. -/
  response : DbusResponse
  /-- Whether the fallback `fs::write` in `set_value` succeeds. -/
  writeOk : Bool

/-- Control events emitted by `BlockingDeviceImpl::set`, in order. -/
inductive Event
  /-- The D-Bus `SetBrightness("backlight", device, value)` call. -/
  | dbusSetBrightness (device : String) (value : ℕ)
  /-- The fallback write of `value` to the device's `brightness` file
  (`set_value`). -/
  | writeBrightness (device : String) (value : ℕ)
  deriving DecidableEq, Repr

/-- `BlockingDeviceImpl::set` (`src/blocking/linux.rs` lines 36–67):
clamps the percentage with `.min(100)`, reads `max_brightness`, computes
`desired_value = (u64::from(percentage) * u64::from(max) / 100) as u32`
(the product is computed in `u64`, so with `percentage ≤ 100` and
`max < 2^32` it cannot overflow, and the quotient is `≤ max < 2^32` so the
cast is lossless), then calls the D-Bus `SetBrightness` method; on
`MethodError` it falls back to `set_value`, on any other error it returns
`SettingBrightnessFailed`. Returns the result and the ordered event list. -/
def set (device : String) (env : SetEnv) (percentage : ℕ) :
    Except Error Unit × List Event :=
  let p := min percentage 100
  match env.readMax with
  | .error e => (.error e.toError, [])
  | .ok max =>
    let desired := p * max / 100
    if env.connectOk then
      match env.response with
      | .ok => (.ok (), [.dbusSetBrightness device desired])
      | .methodError =>
        if env.writeOk then
          (.ok (), [.dbusSetBrightness device desired, .writeBrightness device desired])
        else
          (.error (SysError.writingBrightnessFailed device).toError,
            [.dbusSetBrightness device desired, .writeBrightness device desired])
      | .otherError =>
        (.error (.settingBrightnessFailed device), [.dbusSetBrightness device desired])
    else (.error (.settingBrightnessFailed device), [])

/-- One `fs::read_dir` entry of `/sys/class/backlight`, as inspected by
`brightness_devices` in `src/blocking/linux.rs`: the result of
`file_name().into_string().ok()` and the existence of the two attribute
files. -/
structure DirEntry where
  /-- `device.file_name().into_string().ok()`. -/
  fileName : Option String
  /-- `path.join("actual_brightness").exists()`. -/
  hasActual : Bool
  /-- `path.join("max_brightness").exists()`. -/
  hasMax : Bool

/-- The body of the closure mapped over the directory entries in
`brightness_devices`, with the trailing `filter_map(Result::transpose)`
inlined: an errored entry yields an error item, an entry whose name converts
and whose directory has both attribute files yields a device, and any other
entry is skipped. -/
def entryDevice (ent : Except Unit DirEntry) : Option (Except SysError String) :=
  match ent with
  | .error _ => some (.error .readingBacklightDirFailed)
  | .ok entry =>
    let keep := entry.hasActual && entry.hasMax
    match entry.fileName with
    | none => none
    | some device => if keep then some (.ok device) else none

/-- `brightness_devices` (`src/blocking/linux.rs` lines 70–90), parameterised
by the outcome of `fs::read_dir(BACKLIGHT_DIR)`: if the listing itself fails
the iterator yields exactly one error; otherwise each entry is mapped through
`entryDevice`. A device is just its name (`BlockingDeviceImpl { device }`). -/
def brightness_devices (readDir : Except Unit (List (Except Unit DirEntry))) :
    List (Except SysError String) :=
  match readDir with
  | .error _ => [.error .readingBacklightDirFailed]
  | .ok entries => entries.filterMap entryDevice

end Linux

namespace Windows

/-- `DISPLAYPOLICY_AC` from the Windows SDK (`ntddvdeo.h`), as imported by the
`windows` crate. -/
def DISPLAYPOLICY_AC : ℕ := 1

/-- `DISPLAYPOLICY_DC` from the Windows SDK (`ntddvdeo.h`). -/
def DISPLAYPOLICY_DC : ℕ := 2

/-- Platform-specific error type (`SysError` in `src/blocking/windows.rs`),
keeping the device name where the source keeps one. -/
inductive SysError
  | enumDisplayMonitorsFailed
  | getDisplayConfigBufferSizesFailed
  | queryDisplayConfigFailed
  | displayConfigGetDeviceInfoFailed
  | getMonitorInfoFailed
  | getPhysicalMonitorsFailed
  | enumerationMismatch
  | deviceInfoMissing
  | openingMonitorDeviceInterfaceHandleFailed (deviceName : String)
  | ioctlQuerySupportedBrightnessFailed (deviceName : String)
  | ioctlQueryDisplayBrightnessFailed (deviceName : String)
  | ioctlQueryDisplayBrightnessUnexpectedResponse (deviceName : String)
  | gettingMonitorBrightnessFailed (deviceName : String)
  | ioctlSetBrightnessFailed (deviceName : String)
  | settingBrightnessFailed (deviceName : String)
  deriving DecidableEq, Repr

/-- `impl From<SysError> for Error` in `src/blocking/windows.rs`. -/
def SysError.toError : SysError → Error
  | .enumerationMismatch => .listingDevicesFailed
  | .deviceInfoMissing => .listingDevicesFailed
  | .getDisplayConfigBufferSizesFailed => .listingDevicesFailed
  | .queryDisplayConfigFailed => .listingDevicesFailed
  | .displayConfigGetDeviceInfoFailed => .listingDevicesFailed
  | .getPhysicalMonitorsFailed => .listingDevicesFailed
  | .enumDisplayMonitorsFailed => .listingDevicesFailed
  | .getMonitorInfoFailed => .listingDevicesFailed
  | .openingMonitorDeviceInterfaceHandleFailed _ => .listingDevicesFailed
  | .ioctlQuerySupportedBrightnessFailed d => .gettingDeviceInfoFailed d
  | .ioctlQueryDisplayBrightnessFailed d => .gettingDeviceInfoFailed d
  | .ioctlQueryDisplayBrightnessUnexpectedResponse d => .gettingDeviceInfoFailed d
  | .gettingMonitorBrightnessFailed d => .gettingDeviceInfoFailed d
  | .settingBrightnessFailed d => .settingBrightnessFailed d
  | .ioctlSetBrightnessFailed d => .settingBrightnessFailed d

/-- The `DISPLAY_BRIGHTNESS` structure filled by
`IOCTL_VIDEO_QUERY_DISPLAY_BRIGHTNESS`; all three fields are `u8`. -/
structure DISPLAY_BRIGHTNESS where
  ucDisplayPolicy : ℕ
  ucACBrightness : ℕ
  ucDCBrightness : ℕ
  deriving DecidableEq, Repr

/-- `ioctl_query_display_brightness` (`src/blocking/windows.rs` lines
569–602), parameterised by the outcome of the `DeviceIoControl` call: on
success, the `u8` policy field is widened to `u32` and matched against
`DISPLAYPOLICY_AC` then `DISPLAYPOLICY_DC`; any other value is the
"unexpected response" error. -/
def ioctl_query_display_brightness (deviceName : String)
    (ioResult : Except Unit DISPLAY_BRIGHTNESS) : Except SysError ℕ :=
  match ioResult with
  | .error _ => .error (.ioctlQueryDisplayBrightnessFailed deviceName)
  | .ok db =>
    if db.ucDisplayPolicy = DISPLAYPOLICY_AC then .ok db.ucACBrightness
    else if db.ucDisplayPolicy = DISPLAYPOLICY_DC then .ok db.ucDCBrightness
    else .error (.ioctlQueryDisplayBrightnessUnexpectedResponse deviceName)

/-- The `(min, current, max)` triple read by `GetMonitorBrightness`
(`DdcciBrightnessValues`); all fields are `u32`. -/
structure DdcciBrightnessValues where
  min : ℕ
  current : ℕ
  max : ℕ
  deriving DecidableEq, Repr

/-- `DdcciBrightnessValues::get_current_percentage`
(`src/blocking/windows.rs` lines 482–486), with the `f64` arithmetic
modelled exactly over `ℚ` and the final `as u32` cast modelled by `Int.toNat`
(an `f64` to `u32` cast saturates below at 0; the upper saturation at
`2^32 - 1` cannot trigger for the in-range inputs the claims quantify over).
The `u32` subtractions `current - min` and `max - min` are modelled as exact:
they agree with the source whenever `min ≤ current` and `min ≤ max`, which
every claim about this function assumes. -/
def get_current_percentage (v : DdcciBrightnessValues) : ℕ :=
  (roundHalfAway (((v.current : ℚ) - v.min) / ((v.max : ℚ) - v.min) * 100)).toNat

/-- `DdcciBrightnessValues::percentage_to_current`
(`src/blocking/windows.rs` lines 488–493), modelled over `ℚ` with the same
conventions as `get_current_percentage`. -/
def percentage_to_current (v : DdcciBrightnessValues) (percentage : ℕ) : ℕ :=
  (roundHalfAway ((percentage : ℚ) / 100 * ((v.max : ℚ) - v.min))).toNat + v.min

/-- `IoctlSupportedBrightnessLevels::get_nearest`
(`src/blocking/windows.rs` lines 532–538):
`self.0.iter().copied().min_by_key(|&num| (num as i64 - percentage as i64).abs()).unwrap_or(0)`.
Levels are `u8` and the percentage a `u32`, so the `i64` difference and its
absolute value are exact. Rust's `min_by_key` returns the first of several
equally minimal elements, which is exactly a left fold replacing the
accumulator only on a strictly smaller key. -/
def get_nearest (levels : List ℕ) (percentage : ℕ) : ℕ :=
  match levels with
  | [] => 0
  | l :: ls =>
    ls.foldl
      (fun (best num : ℕ) =>
        if ((num : ℤ) - percentage).natAbs < ((best : ℤ) - percentage).natAbs
        then num else best)
      l

/-- Control events emitted by `BlockingDeviceImpl::set` on Windows. -/
inductive Event
  /-- `ioctl_set_display_brightness` with the snapped `u8` level, applied to
  both the AC and DC fields. -/
  | ioctlSetDisplayBrightness (value : ℕ)
  /-- `SetMonitorBrightness` with the computed `u32` raw value. -/
  | ddcciSetMonitorBrightness (value : ℕ)
  deriving DecidableEq, Repr

/-- Outcomes of the side-effecting calls made by one Windows
`BlockingDeviceImpl::set` invocation. -/
structure SetEnv where
  /-- `self.is_internal()`: whether the output technology is
  `DISPLAYCONFIG_OUTPUT_TECHNOLOGY_INTERNAL`. -/
  isInternal : Bool
  /-- Result of `ioctl_query_supported_brightness` (the list of `u8`
  levels). -/
  supportedLevels : Except Unit (List ℕ)
  /-- Result of `ddcci_get_monitor_brightness`. -/
  ddcciValues : Except Unit DdcciBrightnessValues
  /-- Whether the `IOCTL_VIDEO_SET_DISPLAY_BRIGHTNESS` call succeeds. -/
  ioctlSetOk : Bool
  /-- Whether the `SetMonitorBrightness` call succeeds. -/
  ddcciSetOk : Bool

/-- Windows `BlockingDeviceImpl::set` (`src/blocking/windows.rs` lines
134–145): on the internal path, query the supported levels, snap the
requested percentage with `get_nearest`, and issue the IOCTL set call; on the
external path, read the current `(min, current, max)` triple, recompute the
raw value with `percentage_to_current`, and issue the DDC/CI set call.
Returns the result and the ordered event list. -/
def set (deviceName : String) (env : SetEnv) (percentage : ℕ) :
    Except SysError Unit × List Event :=
  if env.isInternal then
    match env.supportedLevels with
    | .error _ => (.error (.ioctlQuerySupportedBrightnessFailed deviceName), [])
    | .ok levels =>
      let newValue := get_nearest levels percentage
      if env.ioctlSetOk then (.ok (), [.ioctlSetDisplayBrightness newValue])
      else (.error (.ioctlSetBrightnessFailed deviceName),
        [.ioctlSetDisplayBrightness newValue])
  else
    match env.ddcciValues with
    | .error _ => (.error (.gettingMonitorBrightnessFailed deviceName), [])
    | .ok current =>
      let newValue := percentage_to_current current percentage
      if env.ddcciSetOk then (.ok (), [.ddcciSetMonitorBrightness newValue])
      else (.error (.settingBrightnessFailed deviceName),
        [.ddcciSetMonitorBrightness newValue])

/-- Windows `BlockingDeviceImpl::get` (`src/blocking/windows.rs` lines
126–132): the internal path interprets the IOCTL query, the external path
converts the DDC/CI triple to a percentage. -/
def get (deviceName : String) (isInternal : Bool)
    (ioctlResult : Except Unit DISPLAY_BRIGHTNESS)
    (ddcciResult : Except Unit DdcciBrightnessValues) : Except SysError ℕ :=
  if isInternal then ioctl_query_display_brightness deviceName ioctlResult
  else
    match ddcciResult with
    | .error _ => .error (.gettingMonitorBrightnessFailed deviceName)
    | .ok v => .ok (get_current_percentage v)

/-- A `DISPLAY_DEVICEW` record as used by `brightness_devices`, after the
active-device filter of `get_display_devices_from_hmonitor`. The `DeviceID`
(a DOS device path, `[u16; 128]` in the source) is modelled as a `String`,
which is also what `wchar_to_string` produces from it for `device_path`. -/
structure DisplayDevice where
  deviceID : String
  deviceName : String
  deviceString : String
  deviceKey : String
  deriving DecidableEq, Repr

/-- The entry of the device-info map built by `get_device_info_map`
(a `DISPLAYCONFIG_TARGET_DEVICE_NAME`, reduced to the one field the
enumeration reads). -/
structure TargetInfo where
  outputTechnology : ℕ
  deriving DecidableEq, Repr

/-- Outcome of the `CreateFileW` call in
`get_file_handle_for_display_device`: an opened handle, an
`ERROR_ACCESS_DENIED` failure (expected for virtual displays), or any other
failure. -/
inductive OpenResult
  | opened (handle : ℕ)
  | accessDenied
  | failed
  deriving DecidableEq, Repr

/-- `get_file_handle_for_display_device` (`src/blocking/windows.rs` lines
340–363): `ERROR_ACCESS_DENIED` becomes `Ok(None)` (skip), any other failure
is fatal for the device. -/
def get_file_handle_for_display_device (res : OpenResult) (deviceName : String) :
    Except SysError (Option ℕ) :=
  match res with
  | .opened h => .ok (some h)
  | .accessDenied => .ok none
  | .failed => .error (.openingMonitorDeviceInterfaceHandleFailed deviceName)

/-- `Result::transpose`. -/
def exceptTranspose : Except ε (Option α) → Option (Except ε α)
  | .ok none => none
  | .ok (some a) => some (.ok a)
  | .error e => some (.error e)

/-- A fully resolved device (`BlockingDeviceImpl` on Windows). -/
structure WinDevice where
  physicalMonitor : ℕ
  fileHandle : ℕ
  deviceName : String
  deviceDescription : String
  deviceKey : String
  devicePath : String
  outputTechnology : ℕ
  deriving DecidableEq, Repr

/-- The per-logical-monitor environment: the outcomes of
`get_physical_monitors_from_hmonitor` (a list of physical-monitor handles)
and `get_display_devices_from_hmonitor` (the active display-device
records). -/
structure MonitorEnv where
  physicalMonitors : Except SysError (List ℕ)
  displayDevices : Except SysError (List DisplayDevice)

/-- The body of the `flat_map` over logical monitors in `brightness_devices`
(`src/blocking/windows.rs` lines 158–197): fetch the two lists (each failure
yields a one-element error vector), fail with `EnumerationMismatch` when
their lengths differ, otherwise zip them positionally, drop pairs whose
device-interface open is an expected skip, and resolve each remaining pair
into a device (propagating open failures and missing info-map entries). -/
def enumerateMonitor (infoMap : String → Option TargetInfo)
    (openHandle : DisplayDevice → OpenResult) (m : MonitorEnv) :
    List (Except SysError WinDevice) :=
  match m.physicalMonitors with
  | .error e => [.error e]
  | .ok physicalMonitors =>
    match m.displayDevices with
    | .error e => [.error e]
    | .ok displayDevices =>
      if displayDevices.length ≠ physicalMonitors.length then
        [.error .enumerationMismatch]
      else
        ((physicalMonitors.zip displayDevices).filterMap fun pd =>
          (exceptTranspose
              (get_file_handle_for_display_device (openHandle pd.2) pd.2.deviceName)).map
            fun fileHandle => (pd.1, pd.2, fileHandle)).map
          fun t =>
            match t.2.2 with
            | .error e => .error e
            | .ok fileHandle =>
              match infoMap t.2.1.deviceID with
              | none => .error .deviceInfoMissing
              | some info =>
                .ok
                  { physicalMonitor := t.1
                    fileHandle := fileHandle
                    deviceName := t.2.1.deviceName
                    deviceDescription := t.2.1.deviceString
                    deviceKey := t.2.1.deviceKey
                    devicePath := t.2.1.deviceID
                    outputTechnology := info.outputTechnology }

/-- The whole-enumeration environment: the outcomes of
`get_device_info_map` and `enum_display_monitors`, and the per-display-device
outcome of the `CreateFileW` open. -/
structure EnumEnv where
  deviceInfoMap : Except SysError (String → Option TargetInfo)
  hmonitors : Except SysError (List MonitorEnv)
  openHandle : DisplayDevice → OpenResult

/-- Windows `brightness_devices` (`src/blocking/windows.rs` lines 148–199):
a failure of either global query yields exactly one error; otherwise the
per-monitor results are concatenated. -/
def brightness_devices (env : EnumEnv) : List (Except SysError WinDevice) :=
  match env.deviceInfoMap with
  | .error e => [.error e]
  | .ok infoMap =>
    match env.hmonitors with
    | .error e => [.error e]
    | .ok monitors =>
      (monitors.map (enumerateMonitor infoMap env.openHandle)).flatten

end Windows

/-! ## Helper lemmas -/

/-- Rounding half away from zero differs from the exact value by at most
one half. -/
theorem abs_roundHalfAway_sub (q : ℚ) : |(roundHalfAway q : ℚ) - q| ≤ 1 / 2 := by
  unfold roundHalfAway
  by_cases h : q < 0
  · rw [if_pos h]
    push_cast
    rw [show -(round (-q) : ℚ) - q = -((round (-q) : ℚ) - -q) by ring, abs_neg,
      abs_sub_comm]
    exact abs_sub_round (-q)
  · rw [if_neg h, abs_sub_comm]
    exact abs_sub_round q

/-- On nonnegative arguments, rounding half away from zero is rounding
half up. -/
theorem roundHalfAway_of_nonneg {q : ℚ} (hq : 0 ≤ q) : roundHalfAway q = round q :=
  if_neg (not_lt.mpr hq)

/-- Rounding a nonnegative rational is nonnegative. -/
theorem round_nonneg_of_nonneg {q : ℚ} (hq : 0 ≤ q) : 0 ≤ round q := by
  rw [round_eq]
  exact Int.le_floor.mpr (by push_cast; linarith)

namespace Windows

/-- The left fold underlying `get_nearest` selects an element of the
accumulator-or-list. -/
theorem foldl_minBy_mem (k : ℕ → ℕ) (ls : List ℕ) (b : ℕ) :
    ls.foldl (fun best num => if k num < k best then num else best) b ∈ b :: ls := by
  induction ls generalizing b with
  | nil => simp
  | cons z ls ih =>
    have h := ih (if k z < k b then z else b)
    simp only [List.foldl_cons]
    rcases List.mem_cons.mp h with h4 | h4
    · rw [h4]
      by_cases hc : k z < k b <;> simp [hc]
    · simp [h4]

/-- The left fold underlying `get_nearest` minimises the key over the
accumulator and the list. -/
theorem foldl_minBy_le (k : ℕ → ℕ) (ls : List ℕ) (b : ℕ) :
    k (ls.foldl (fun best num => if k num < k best then num else best) b) ≤ k b ∧
      ∀ y ∈ ls,
        k (ls.foldl (fun best num => if k num < k best then num else best) b) ≤ k y := by
  induction ls generalizing b with
  | nil => simp
  | cons z ls ih =>
    obtain ⟨h1, h2⟩ := ih (if k z < k b then z else b)
    simp only [List.foldl_cons]
    have hzb : k (if k z < k b then z else b) ≤ k b := by
      by_cases hc : k z < k b <;> simp [hc]
      exact hc.le
    have hzz : k (if k z < k b then z else b) ≤ k z := by
      by_cases hc : k z < k b <;> simp [hc]
      exact not_lt.mp hc
    refine ⟨h1.trans hzb, ?_⟩
    intro y hy
    rcases List.mem_cons.mp hy with rfl | hy
    · exact h1.trans hzz
    · exact h2 y hy

/-- If the accumulator's key is already minimal, the left fold underlying
`get_nearest` keeps it (ties never replace the accumulator). -/
theorem foldl_minBy_skip (k : ℕ → ℕ) (ls : List ℕ) (b : ℕ)
    (h : ∀ y ∈ ls, k b ≤ k y) :
    ls.foldl (fun best num => if k num < k best then num else best) b = b := by
  induction ls with
  | nil => rfl
  | cons z ls ih =>
    simp only [List.foldl_cons]
    rw [if_neg (not_lt.mpr (h z (by simp)))]
    exact ih fun y hy => h y (by simp [hy])

/-- The left fold underlying `get_nearest` returns the first element of
minimal key, provided it beats the accumulator strictly. -/
theorem foldl_minBy_first (k : ℕ → ℕ) (pre : List ℕ) (x : ℕ) (post : List ℕ) (b : ℕ)
    (hb : k x < k b) (hpre : ∀ y ∈ pre, k x < k y) (hpost : ∀ y ∈ post, k x ≤ k y) :
    (pre ++ x :: post).foldl (fun best num => if k num < k best then num else best) b
      = x := by
  induction pre generalizing b with
  | nil =>
    simp only [List.nil_append, List.foldl_cons]
    rw [if_pos hb]
    exact foldl_minBy_skip k post x hpost
  | cons z pre ih =>
    simp only [List.cons_append, List.foldl_cons]
    refine ih _ ?_ fun y hy => hpre y (by simp [hy])
    by_cases hc : k z < k b
    · rw [if_pos hc]
      exact hpre z (by simp)
    · rw [if_neg hc]
      exact hb

end Windows

/-! ## Claim theorems -/

/-- C5: On the filesystem backend, `set` always attempts the D-Bus
`SetBrightness` call first; exactly when that call fails with the
method-error condition does it fall back to writing the already-computed raw
value to the brightness file, and any other service failure is returned
immediately as a setting-brightness-failed error without attempting the
fallback write. -/
theorem C5_fallback_policy (device : String) (env : Linux.SetEnv) (p max : ℕ)
    (hmax : env.readMax = .ok max) (hconn : env.connectOk = true) :
    (env.response = .ok →
      Linux.set device env p =
        (.ok (), [.dbusSetBrightness device (min p 100 * max / 100)])) ∧
    (env.response = .methodError →
      (Linux.set device env p).2 =
        [.dbusSetBrightness device (min p 100 * max / 100),
          .writeBrightness device (min p 100 * max / 100)]) ∧
    (env.response = .otherError →
      Linux.set device env p =
        (.error (.settingBrightnessFailed device),
          [.dbusSetBrightness device (min p 100 * max / 100)])) := by
  refine ⟨fun h => ?_, fun h => ?_, fun h => ?_⟩
  · simp [Linux.set, hmax, hconn, h]
  · cases hw : env.writeOk <;> simp [Linux.set, hmax, hconn, h, hw]
  · simp [Linux.set, hmax, hconn, h]

/-- Witness for C5 at a concrete environment: with `max_brightness = 150`,
requested percentage 50 and a method-error response, `set` emits the D-Bus
call with raw value 75 followed by the fallback write of the same value. -/
theorem C5_fallback_policy_witness :
    (Linux.set "card0" ⟨.ok 150, true, .methodError, true⟩ 50).2 =
      [.dbusSetBrightness "card0" 75, .writeBrightness "card0" 75] :=
  (C5_fallback_policy "card0" ⟨.ok 150, true, .methodError, true⟩ 50 150 rfl rfl).2.1 rfl

/-- C7: the internal-panel `get` path interprets the query result as the
AC-power value when the policy flag is `DISPLAYPOLICY_AC`, the battery value
when it is `DISPLAYPOLICY_DC`, and a fatal "unexpected response" error for
every other policy value. -/
theorem C7_policy_interpretation (deviceName : String)
    (db : Windows.DISPLAY_BRIGHTNESS) :
    (db.ucDisplayPolicy = Windows.DISPLAYPOLICY_AC →
      Windows.ioctl_query_display_brightness deviceName (.ok db) =
        .ok db.ucACBrightness) ∧
    (db.ucDisplayPolicy = Windows.DISPLAYPOLICY_DC →
      Windows.ioctl_query_display_brightness deviceName (.ok db) =
        .ok db.ucDCBrightness) ∧
    (db.ucDisplayPolicy ≠ Windows.DISPLAYPOLICY_AC →
      db.ucDisplayPolicy ≠ Windows.DISPLAYPOLICY_DC →
      Windows.ioctl_query_display_brightness deviceName (.ok db) =
        .error (.ioctlQueryDisplayBrightnessUnexpectedResponse deviceName)) := by
  refine ⟨fun h => ?_, fun h => ?_, fun h1 h2 => ?_⟩
  · simp [Windows.ioctl_query_display_brightness, h]
  · simp [Windows.ioctl_query_display_brightness, h, Windows.DISPLAYPOLICY_AC,
      Windows.DISPLAYPOLICY_DC]
  · simp [Windows.ioctl_query_display_brightness, h1, h2]

/-- Witness for C7 at concrete query responses: policy 1 yields the AC
value, policy 2 the DC value, policy 3 the unexpected-response error. -/
theorem C7_policy_interpretation_witness :
    Windows.ioctl_query_display_brightness "disp" (.ok ⟨1, 33, 44⟩) = .ok 33 ∧
    Windows.ioctl_query_display_brightness "disp" (.ok ⟨2, 33, 44⟩) = .ok 44 ∧
    Windows.ioctl_query_display_brightness "disp" (.ok ⟨3, 33, 44⟩) =
      .error (.ioctlQueryDisplayBrightnessUnexpectedResponse "disp") :=
  ⟨(C7_policy_interpretation "disp" ⟨1, 33, 44⟩).1 rfl,
    (C7_policy_interpretation "disp" ⟨2, 33, 44⟩).2.1 rfl,
    (C7_policy_interpretation "disp" ⟨3, 33, 44⟩).2.2 (by decide) (by decide)⟩

/-- C8: filesystem-backend enumeration yields one device per directory entry
carrying both attribute files, silently skips entries lacking either, and a
failure to list the backlight directory itself yields exactly one
listing-devices-failed error. -/
theorem C8_enumeration :
    (Linux.brightness_devices (.error ()) = [.error .readingBacklightDirFailed] ∧
      Linux.SysError.toError .readingBacklightDirFailed = .listingDevicesFailed) ∧
    (∀ entries,
      Linux.brightness_devices (.ok entries) = entries.filterMap Linux.entryDevice) ∧
    (∀ e : Linux.DirEntry, ∀ n, e.fileName = some n → e.hasActual = true →
      e.hasMax = true → Linux.entryDevice (.ok e) = some (.ok n)) ∧
    (∀ e : Linux.DirEntry, (e.hasActual && e.hasMax) = false →
      Linux.entryDevice (.ok e) = none) := by
  refine ⟨⟨rfl, rfl⟩, fun entries => rfl, fun e n hn ha hm => ?_, fun e hk => ?_⟩
  · simp [Linux.entryDevice, hn, ha, hm]
  · cases hf : e.fileName <;> simp [Linux.entryDevice, hk, hf]

/-- Witness for C8 at a concrete directory listing: an entry with both
attributes yields its device, an entry lacking `max_brightness` is skipped
without an error. -/
theorem C8_enumeration_witness :
    Linux.brightness_devices
        (.ok [.ok ⟨some "intel_backlight", true, true⟩, .ok ⟨some "ddcci3", true, false⟩])
      = [.ok "intel_backlight"] := by
  have h := C8_enumeration
  rw [h.2.1]
  rw [List.filterMap_cons, h.2.2.1 ⟨some "intel_backlight", true, true⟩ "intel_backlight"
    rfl rfl rfl]
  rw [List.filterMap_cons, h.2.2.2 ⟨some "ddcci3", true, false⟩ (by decide)]
  rfl

/-- C10: the nearest-level computation is total on an empty supported-levels
list and returns 0, so the internal-panel `set` proceeds to issue the
set-brightness control call with level 0 instead of failing. -/
theorem C10_empty_levels (deviceName : String) (env : Windows.SetEnv) (p : ℕ)
    (hint : env.isInternal = true) (hlv : env.supportedLevels = .ok []) :
    Windows.get_nearest [] p = 0 ∧
    (Windows.set deviceName env p).2 = [.ioctlSetDisplayBrightness 0] ∧
    (env.ioctlSetOk = true →
      Windows.set deviceName env p = (.ok (), [.ioctlSetDisplayBrightness 0])) := by
  refine ⟨rfl, ?_, fun hok => ?_⟩
  · cases hok : env.ioctlSetOk <;>
      simp [Windows.set, hint, hlv, hok, Windows.get_nearest]
  · simp [Windows.set, hint, hlv, hok, Windows.get_nearest]

/-- Witness for C10 at a concrete environment: an internal panel reporting no
supported levels is still set, with level 0. -/
theorem C10_empty_levels_witness :
    Windows.set "disp0" ⟨true, .ok [], .error (), true, true⟩ 42 =
      (.ok (), [.ioctlSetDisplayBrightness 0]) :=
  (C10_empty_levels "disp0" ⟨true, .ok [], .error (), true, true⟩ 42 rfl rfl).2.2 rfl

/-- C4: during handle-based enumeration, a logical monitor whose
physical-monitor handle list and active display-device record list have
different lengths yields exactly one enumeration-mismatch error and zero
devices, and the overall enumeration is the independent concatenation of the
per-monitor results, so every other logical monitor can still succeed. -/
theorem C4_mismatch_isolated (env : Windows.EnumEnv)
    (im : String → Option Windows.TargetInfo) (ms : List Windows.MonitorEnv)
    (m : Windows.MonitorEnv) (pms : List ℕ) (dds : List Windows.DisplayDevice)
    (him : env.deviceInfoMap = .ok im) (hms : env.hmonitors = .ok ms) (_hm : m ∈ ms)
    (hp : m.physicalMonitors = .ok pms) (hd : m.displayDevices = .ok dds)
    (hlen : dds.length ≠ pms.length) :
    Windows.enumerateMonitor im env.openHandle m = [.error .enumerationMismatch] ∧
    Windows.brightness_devices env =
      (ms.map (Windows.enumerateMonitor im env.openHandle)).flatten := by
  constructor
  · simp [Windows.enumerateMonitor, hp, hd, hlen]
  · simp [Windows.brightness_devices, him, hms]

/-- Witness for C4 at a concrete environment mirroring the specification's
scenario: one logical monitor reports two physical-monitor handles but one
active display-device record and yields exactly the mismatch error; an
unrelated, correctly paired logical monitor still yields its device. -/
theorem C4_mismatch_isolated_witness :
    Windows.brightness_devices
        ⟨.ok fun s => if s = "pathB" then some ⟨5⟩ else none,
          .ok
            [⟨.ok [11, 12], .ok [⟨"pathA", "nameA", "descA", "keyA"⟩]⟩,
              ⟨.ok [13], .ok [⟨"pathB", "nameB", "descB", "keyB"⟩]⟩],
          fun _ => .opened 7⟩
      = [.error .enumerationMismatch,
          .ok ⟨13, 7, "nameB", "descB", "keyB", "pathB", 5⟩] := by
  have h := C4_mismatch_isolated
    ⟨.ok fun s => if s = "pathB" then some ⟨5⟩ else none,
      .ok
        [⟨.ok [11, 12], .ok [⟨"pathA", "nameA", "descA", "keyA"⟩]⟩,
          ⟨.ok [13], .ok [⟨"pathB", "nameB", "descB", "keyB"⟩]⟩],
      fun _ => .opened 7⟩
    (fun s => if s = "pathB" then some ⟨5⟩ else none)
    [⟨.ok [11, 12], .ok [⟨"pathA", "nameA", "descA", "keyA"⟩]⟩,
      ⟨.ok [13], .ok [⟨"pathB", "nameB", "descB", "keyB"⟩]⟩]
    ⟨.ok [11, 12], .ok [⟨"pathA", "nameA", "descA", "keyA"⟩]⟩
    [11, 12] [⟨"pathA", "nameA", "descA", "keyA"⟩]
    rfl rfl (by simp) rfl rfl (by decide)
  rw [h.2, List.map_cons, List.map_cons, List.map_nil, h.1]
  rfl

/-- C6: the internal-panel nearest-level snap returns a supported level of
minimal absolute distance to the requested percentage, with ties broken in
favour of the level visited first in the enumerated order; in particular,
levels {0, 20, 50, 80, 100} with request 60 give 50, and the tie
{40, 60} with request 50 gives the first-visited 40. -/
theorem C6_nearest_level (levels : List ℕ) (p : ℕ) (h : levels ≠ []) :
    (Windows.get_nearest levels p ∈ levels ∧
      ∀ l ∈ levels,
        ((Windows.get_nearest levels p : ℤ) - p).natAbs ≤ ((l : ℤ) - p).natAbs) ∧
    (∀ (pre : List ℕ) (x : ℕ) (post : List ℕ), levels = pre ++ x :: post →
      (∀ y ∈ pre, ((x : ℤ) - p).natAbs < ((y : ℤ) - p).natAbs) →
      (∀ y ∈ post, ((x : ℤ) - p).natAbs ≤ ((y : ℤ) - p).natAbs) →
      Windows.get_nearest levels p = x) ∧
    Windows.get_nearest [0, 20, 50, 80, 100] 60 = 50 ∧
    Windows.get_nearest [40, 60] 50 = 40 := by
  obtain ⟨l, ls, rfl⟩ := List.exists_cons_of_ne_nil h
  set k : ℕ → ℕ := fun num => ((num : ℤ) - p).natAbs with hk
  refine ⟨⟨?_, ?_⟩, ?_, by decide, by decide⟩
  · exact Windows.foldl_minBy_mem k ls l
  · intro y hy
    obtain ⟨h1, h2⟩ := Windows.foldl_minBy_le k ls l
    rcases List.mem_cons.mp hy with rfl | hy
    · exact h1
    · exact h2 y hy
  · intro pre x post heq hpre hpost
    cases pre with
    | nil =>
      rw [List.nil_append] at heq
      injection heq with h1 h2
      subst h1
      subst h2
      exact Windows.foldl_minBy_skip k ls l hpost
    | cons b pre' =>
      rw [List.cons_append] at heq
      injection heq with h1 h2
      subst h1
      subst h2
      exact Windows.foldl_minBy_first k pre' x post l (hpre l (by simp))
        (fun y hy => hpre y (by simp [hy])) hpost

/-- Witness for C6: the two concrete snaps of the specification, obtained
from the theorem at the tie list `[40, 60]`. -/
theorem C6_nearest_level_witness :
    Windows.get_nearest [0, 20, 50, 80, 100] 60 = 50 ∧
    Windows.get_nearest [40, 60] 50 = 40 :=
  ⟨(C6_nearest_level [0, 20, 50, 80, 100] 60 (by decide)).2.2.1,
    (C6_nearest_level [40, 60] 50 (by decide)).2.2.2⟩

/-- Counterexample to C1 as stated: on the filesystem backend with raw values
`actual = 2`, `max = 1` (actual greater than max), a successful `get`
returns 200, which is outside 0–100. -/
theorem C1_counterexample :
    Linux.get (.ok 1) (.ok 2) = .ok 200 ∧ ¬ (200 : ℕ) ≤ 100 :=
  ⟨rfl, by decide⟩

/-- The filesystem `get` percentage is at most 100 whenever
`actual ≤ max` — even under u32 wrap-around, since the reduced product is
still at most `max * 100`. -/
theorem linux_getPercentage_le (actual max : ℕ) (h : actual ≤ max) :
    Linux.getPercentage actual max ≤ 100 := by
  unfold Linux.getPercentage
  by_cases hm : max = 0
  · simp [hm]
  · rw [if_neg hm]
    calc actual * 100 % U32 / max ≤ actual * 100 / max :=
        Nat.div_le_div_right (Nat.mod_le _ _)
      _ ≤ max * 100 / max := Nat.div_le_div_right (Nat.mul_le_mul_right 100 h)
      _ = 100 := Nat.mul_div_cancel_left 100 (Nat.pos_of_ne_zero hm)

/-- The DDC/CI percentage is at most 100 whenever the raw triple satisfies
`min ≤ current ≤ max` and `min < max`. -/
theorem ddc_getPercentage_le (v : Windows.DdcciBrightnessValues)
    (h1 : v.min ≤ v.current) (h2 : v.current ≤ v.max) (h3 : v.min < v.max) :
    Windows.get_current_percentage v ≤ 100 := by
  unfold Windows.get_current_percentage
  have hD : (0 : ℚ) < (v.max : ℚ) - v.min := by
    have : (v.min : ℚ) < v.max := by exact_mod_cast h3
    linarith
  have hnum0 : (0 : ℚ) ≤ (v.current : ℚ) - v.min := by
    have : (v.min : ℚ) ≤ v.current := by exact_mod_cast h1
    linarith
  have hnum1 : (v.current : ℚ) - v.min ≤ (v.max : ℚ) - v.min := by
    have : (v.current : ℚ) ≤ v.max := by exact_mod_cast h2
    linarith
  set q : ℚ := ((v.current : ℚ) - v.min) / ((v.max : ℚ) - v.min) * 100 with hq
  have hq0 : 0 ≤ q := by
    apply mul_nonneg (div_nonneg hnum0 hD.le)
    norm_num
  have hq100 : q ≤ 100 := by
    have hd1 : ((v.current : ℚ) - v.min) / ((v.max : ℚ) - v.min) ≤ 1 :=
      (div_le_one hD).mpr hnum1
    calc q ≤ 1 * 100 := by
          rw [hq]
          exact mul_le_mul_of_nonneg_right hd1 (by norm_num)
      _ = 100 := by norm_num
  rw [roundHalfAway_of_nonneg hq0]
  have : round q ≤ 100 := by
    rw [round_eq]
    have := Int.floor_le_floor (α := ℚ) (show q + 1/2 ≤ 100 + 1/2 by linarith)
    simpa using this.trans_eq (by norm_num)
  omega

/-- C1 amended: a successful `get` returns a percentage in 0–100 provided
the raw values are in their natural ranges — `actual ≤ max` on the
filesystem backend, `min ≤ current ≤ max` with `min < max` on the
external-monitor protocol, and AC/DC report values at most 100 on the
internal-panel path; with `actual > max` or `current > max` the result can
exceed 100. -/
theorem C1_amended :
    (∀ actual max r : ℕ, actual ≤ max →
      Linux.get (.ok max) (.ok actual) = .ok r → r ≤ 100) ∧
    (∀ (name : String) (io : Except Unit Windows.DISPLAY_BRIGHTNESS)
        (v : Windows.DdcciBrightnessValues) (r : ℕ),
      v.min ≤ v.current → v.current ≤ v.max → v.min < v.max →
      Windows.get name false io (.ok v) = .ok r → r ≤ 100) ∧
    (∀ (name : String) (dv : Except Unit Windows.DdcciBrightnessValues)
        (db : Windows.DISPLAY_BRIGHTNESS) (r : ℕ),
      db.ucACBrightness ≤ 100 → db.ucDCBrightness ≤ 100 →
      Windows.get name true (.ok db) dv = .ok r → r ≤ 100) := by
  refine ⟨fun actual max r h hr => ?_, fun name io v r h1 h2 h3 hr => ?_,
    fun name dv db r hac hdc hr => ?_⟩
  · simp only [Linux.get, Except.ok.injEq] at hr
    exact hr ▸ linux_getPercentage_le actual max h
  · simp only [Windows.get, Bool.false_eq_true, if_false, Except.ok.injEq] at hr
    exact hr ▸ ddc_getPercentage_le v h1 h2 h3
  · simp only [Windows.get, if_true, Windows.ioctl_query_display_brightness] at hr
    by_cases hp1 : db.ucDisplayPolicy = Windows.DISPLAYPOLICY_AC
    · rw [if_pos hp1] at hr
      injection hr with hr
      exact hr ▸ hac
    · rw [if_neg hp1] at hr
      by_cases hp2 : db.ucDisplayPolicy = Windows.DISPLAYPOLICY_DC
      · rw [if_pos hp2] at hr
        injection hr with hr
        exact hr ▸ hdc
      · rw [if_neg hp2] at hr
        exact absurd hr (by simp)

/-- Witness for the amended C1 at concrete in-range raw values on all three
paths: 25, 50 and 70 are each within 0–100. -/
theorem C1_amended_witness :
    (25 : ℕ) ≤ 100 ∧ (50 : ℕ) ≤ 100 ∧ (70 : ℕ) ≤ 100 :=
  ⟨C1_amended.1 50 200 25 (by decide) rfl,
    C1_amended.2.1 "n" (.error ()) ⟨10, 110, 210⟩ 50 (by decide) (by decide)
      (by decide)
      (by
        simp only [Windows.get, Bool.false_eq_true, if_false, Except.ok.injEq]
        norm_num [Windows.get_current_percentage, roundHalfAway, round_eq]
        decide),
    C1_amended.2.2 "n" (.error ()) ⟨1, 70, 80⟩ 70 (by decide) (by decide) rfl⟩

/-- Counterexample to C2 as stated: on the Windows external-monitor path with
range `min = 0`, `max = 100`, `set 200` issues the DDC/CI control call with
raw value 200, not the value 100 that the clamped percentage
`min(200, 100)` yields — so `set` does not clamp before computing. -/
theorem C2_counterexample :
    (Windows.set "m" ⟨false, .ok [], .ok ⟨0, 0, 100⟩, true, true⟩ 200).2 =
      [.ddcciSetMonitorBrightness 200] ∧
    (Windows.set "m" ⟨false, .ok [], .ok ⟨0, 0, 100⟩, true, true⟩ (min 200 100)).2 =
      [.ddcciSetMonitorBrightness 100] ∧
    (200 : ℕ) ≠ 100 := by
  refine ⟨?_, ?_, by decide⟩
  · simp only [Windows.set, Bool.false_eq_true, if_false]
    norm_num [Windows.percentage_to_current, roundHalfAway, round_eq]
    decide
  · simp only [Windows.set, Bool.false_eq_true, if_false]
    norm_num [Windows.percentage_to_current, roundHalfAway, round_eq]
    decide

/-- C2 amended: the Linux backend's `set` clamps the requested percentage to
`min(p, 100)` before any computation (it is invariant under pre-clamping),
while the Windows backend's `set` performs no clamp: it passes the raw
requested percentage directly to the nearest-level snap (internal path) and
to the raw-value computation (external path). -/
theorem C2_amended :
    (∀ (device : String) (env : Linux.SetEnv) (p : ℕ),
      Linux.set device env p = Linux.set device env (min p 100)) ∧
    (∀ (name : String) (env : Windows.SetEnv) (p : ℕ) (levels : List ℕ),
      env.isInternal = true → env.supportedLevels = .ok levels →
      (Windows.set name env p).2 =
        [.ioctlSetDisplayBrightness (Windows.get_nearest levels p)]) ∧
    (∀ (name : String) (env : Windows.SetEnv) (p : ℕ)
        (v : Windows.DdcciBrightnessValues),
      env.isInternal = false → env.ddcciValues = .ok v →
      (Windows.set name env p).2 =
        [.ddcciSetMonitorBrightness (Windows.percentage_to_current v p)]) := by
  refine ⟨fun device env p => ?_, fun name env p levels hi hl => ?_,
    fun name env p v hi hd => ?_⟩
  · unfold Linux.set
    rw [min_assoc, min_self]
  · cases hok : env.ioctlSetOk <;> simp [Windows.set, hi, hl, hok]
  · cases hok : env.ddcciSetOk <;> simp [Windows.set, hi, hd, hok]

/-- Witness for the amended C2 at concrete environments: the Linux `set` at
250 equals the `set` at the clamped 100, and both Windows paths pass the raw
percentage through. -/
theorem C2_amended_witness :
    Linux.set "d" ⟨.ok 100, true, .ok, true⟩ 250 =
      Linux.set "d" ⟨.ok 100, true, .ok, true⟩ (min 250 100) ∧
    (Windows.set "w" ⟨true, .ok [0, 50, 100], .error (), true, true⟩ 250).2 =
      [.ioctlSetDisplayBrightness (Windows.get_nearest [0, 50, 100] 250)] ∧
    (Windows.set "w" ⟨false, .ok [], .ok ⟨0, 0, 100⟩, true, true⟩ 70).2 =
      [.ddcciSetMonitorBrightness (Windows.percentage_to_current ⟨0, 0, 100⟩ 70)] :=
  ⟨C2_amended.1 "d" ⟨.ok 100, true, .ok, true⟩ 250,
    C2_amended.2.1 "w" ⟨true, .ok [0, 50, 100], .error (), true, true⟩ 250
      [0, 50, 100] rfl rfl,
    C2_amended.2.2 "w" ⟨false, .ok [], .ok ⟨0, 0, 100⟩, true, true⟩ 70 ⟨0, 0, 100⟩
      rfl rfl⟩

/-- Counterexample to C3 as stated: with `actual = 42949673` and `max = 100`,
the u32 multiplication `actual * 100` wraps modulo `2^32` and a successful
`get` returns 0, not `floor(actual * 100 / max) = 42949673`. -/
theorem C3_counterexample :
    Linux.get (.ok 100) (.ok 42949673) = .ok 0 ∧
    (42949673 * 100 / 100 : ℕ) = 42949673 ∧ (0 : ℕ) ≠ 42949673 :=
  ⟨rfl, by norm_num, by norm_num⟩

/-- C3 amended: `get` returns 0 when `max = 0`; for `max > 0` it returns
`floor(actual * 100 / max)` provided the u32 product does not overflow
(`actual * 100 < 2^32`); in general, for `max > 0`, it returns
`floor((actual * 100 mod 2^32) / max)`. -/
theorem C3_amended :
    (∀ actual : ℕ, Linux.get (.ok 0) (.ok actual) = .ok 0) ∧
    (∀ actual max : ℕ, max ≠ 0 → actual * 100 < U32 →
      Linux.get (.ok max) (.ok actual) = .ok (actual * 100 / max)) ∧
    (∀ actual max : ℕ, max ≠ 0 →
      Linux.get (.ok max) (.ok actual) = .ok (actual * 100 % U32 / max)) := by
  refine ⟨fun actual => by simp [Linux.get, Linux.getPercentage],
    fun actual max hm ho => ?_,
    fun actual max hm => by simp [Linux.get, Linux.getPercentage, hm]⟩
  simp [Linux.get, Linux.getPercentage, hm, Nat.mod_eq_of_lt ho]

/-- Witness for the amended C3 at concrete raw values: a degenerate `max = 0`
gives 0, and `actual = 100`, `max = 400` gives `floor(10000/400) = 25`. -/
theorem C3_amended_witness :
    Linux.get (.ok 0) (.ok 7) = .ok 0 ∧
    Linux.get (.ok 400) (.ok 100) = .ok 25 :=
  ⟨C3_amended.1 7, C3_amended.2.1 100 400 (by decide) (by decide)⟩

/-- C9: on the external-monitor path, for any requested percentage
`p ≤ 100` and any raw range with `max − min ≥ 100`, `set(p)` (which writes
`round(p/100 × (max−min)) + min`) followed by `get()` over the unchanged
range (which reads `round((current−min)/(max−min) × 100)`) yields a
percentage within one unit of `p`. -/
theorem C9_roundtrip (p vmin vmax c₀ : ℕ) (hp : p ≤ 100)
    (hrange : vmin + 100 ≤ vmax) :
    ((Windows.get_current_percentage
        ⟨vmin, Windows.percentage_to_current ⟨vmin, c₀, vmax⟩ p, vmax⟩ : ℤ)
        - p).natAbs ≤ 1 := by
  have hD : (100 : ℚ) ≤ (vmax : ℚ) - vmin := by
    have : (vmin : ℚ) + 100 ≤ vmax := by exact_mod_cast hrange
    linarith
  have hD0 : (0 : ℚ) < (vmax : ℚ) - vmin := by linarith
  set D : ℚ := (vmax : ℚ) - vmin with hDdef
  set t : ℚ := (p : ℚ) / 100 * D with htdef
  have ht0 : 0 ≤ t := by
    apply mul_nonneg (div_nonneg (by positivity) (by norm_num))
    exact hD0.le
  set r : ℤ := roundHalfAway t with hrdef
  have hr_eq : r = round t := roundHalfAway_of_nonneg ht0
  have hr0 : 0 ≤ r := hr_eq ▸ round_nonneg_of_nonneg ht0
  have hcur : Windows.percentage_to_current ⟨vmin, c₀, vmax⟩ p = r.toNat + vmin := rfl
  rw [hcur]
  set q : ℚ := (r : ℚ) / D * 100 with hqdef
  have hget : Windows.get_current_percentage ⟨vmin, r.toNat + vmin, vmax⟩ =
      (roundHalfAway q).toNat := by
    unfold Windows.get_current_percentage
    congr 2
    have hcast : ((r.toNat : ℕ) : ℚ) = (r : ℚ) := by
      exact_mod_cast Int.toNat_of_nonneg hr0
    push_cast
    rw [hcast]
    ring
  rw [hget]
  have he : |(r : ℚ) - t| ≤ 1 / 2 := by
    rw [hr_eq, abs_sub_comm]
    exact abs_sub_round t
  have hq_eq : q - p = ((r : ℚ) - t) * 100 / D := by
    rw [hqdef, htdef]
    field_simp
    ring
  have hqp : |q - (p : ℚ)| ≤ 1 / 2 := by
    rw [hq_eq, abs_div, abs_mul, abs_of_pos hD0]
    rw [div_le_iff₀ hD0]
    have h100 : |(100 : ℚ)| = 100 := by norm_num
    rw [h100]
    calc |(r : ℚ) - t| * 100 ≤ 1 / 2 * 100 :=
        mul_le_mul_of_nonneg_right he (by norm_num)
      _ = 50 := by norm_num
      _ ≤ 1 / 2 * D := by linarith
  have habs : |(roundHalfAway q : ℚ) - p| ≤ 1 :=
    calc |(roundHalfAway q : ℚ) - p|
        ≤ |(roundHalfAway q : ℚ) - q| + |q - p| := abs_sub_le _ q _
      _ ≤ 1 / 2 + 1 / 2 := add_le_add (abs_roundHalfAway_sub q) hqp
      _ = 1 := by norm_num
  have hZ : |roundHalfAway q - (p : ℤ)| ≤ 1 := by
    have hcast : ((|roundHalfAway q - (p : ℤ)| : ℤ) : ℚ)
        = |(roundHalfAway q : ℚ) - p| := by
      push_cast
      rfl
    have : ((|roundHalfAway q - (p : ℤ)| : ℤ) : ℚ) ≤ 1 := hcast ▸ habs
    exact_mod_cast this
  have hb := abs_le.mp hZ
  omega

/-- Witness for C9 at a concrete range: `min = 10`, `max = 210`, requested
60; `set` then `get` lands within one unit of 60. -/
theorem C9_roundtrip_witness :
    ((Windows.get_current_percentage
        ⟨10, Windows.percentage_to_current ⟨10, 0, 210⟩ 60, 210⟩ : ℤ)
        - 60).natAbs ≤ 1 :=
  C9_roundtrip 60 10 210 0 (by decide) (by decide)

end Brightness
